import Mathlib

/-!
Verification development for the ExpressionWhizz calculator
(tokenizer `tokenize.c`, parsers `parse.c` / `parse1.c`, expression tree
`expr_tree.c`, variable store `cdict.c`, REPL `main`).

Modelling conventions, stated once here:

* C `double` values are idealized as exact rationals plus a distinguished
  not-a-number marker (`EDouble`).  All arithmetic exercised by the claims
  (small integers, `pow` with non-negative integer exponents, division with a
  non-zero divisor) is exact on doubles, so the idealization is faithful
  there; a `pow` whose mathematical result is irrational, or an infinity, is
  outside the rational carrier and is mapped to `nan` with a comment at the
  definition.  The claims never evaluate such an expression.
* A C function that can abort the process (a failing `assert`) is modelled
  with `Option` (`none` = the process died) or with an `aborted` flag in the
  evaluator state.  A type-punned read of an inactive union member is
  undefined behavior in C; the evaluator records it in a `ub` flag.
* Buffer-writing code (`ET_tree2string`) is modelled by recording every byte
  store `buf[k] = c` as a pair `(off + k, c)`, where `off` is the absolute
  offset of `buf` inside the top-level caller's buffer.  Out-of-bounds
  writes are therefore visible as recorded indices `≥ buf_sz`.
* The error-message buffer (`errmsg`, 128 bytes in `main`) is modelled as an
  `Option String` slot; every `snprintf` into it overwrites the slot.  The
  messages produced by the claims are far below 128 bytes, so `snprintf`
  truncation of the message text itself never occurs and is not modelled.
-/

/-- A C `double`, idealized: an exact rational or the not-a-number marker. -/
inductive EDouble
  | num (q : ℚ)
  | nan
deriving DecidableEq, Repr

namespace EDouble

/-- C `isnan`. -/
def isNan : EDouble → Bool
  | nan => true
  | num _ => false

/-- C `+` on doubles: NaN propagates. -/
def add : EDouble → EDouble → EDouble
  | num a, num b => num (a + b)
  | _, _ => nan

/-- C `-` (binary) on doubles: NaN propagates. -/
def sub : EDouble → EDouble → EDouble
  | num a, num b => num (a - b)
  | _, _ => nan

/-- C `*` on doubles: NaN propagates.  (`0 * inf = NaN` cases cannot arise:
no infinity inhabits the carrier.) -/
def mul : EDouble → EDouble → EDouble
  | num a, num b => num (a * b)
  | _, _ => nan

/-- C `/` on doubles.  `ET_evaluate` only divides after checking the divisor
against zero, so the `b = 0` case is never reached by the code modelled
here; rational division is total anyway. -/
def div : EDouble → EDouble → EDouble
  | num a, num b => num (a / b)
  | _, _ => nan

/-- C unary negation on doubles. -/
def neg : EDouble → EDouble
  | num a => num (-a)
  | nan => nan

/-- C `pow` from `math.h`.  IEEE corner cases: `pow(x, 0) = 1` for every `x`
including NaN, and `pow(1, y) = 1` for every `y` including NaN.  With a
non-negative integer exponent the C result is exact and equals the rational
power.  A negative exponent with non-zero base gives the exact reciprocal
power.  The remaining cases (fractional exponent, `pow(0, negative)`)
produce an irrational double, an infinity or a domain-error NaN in C — all
outside the rational carrier; they are mapped to `nan` and are not reached
by any claim. -/
def powE : EDouble → EDouble → EDouble
  | _, num 0 => num 1
  | num 1, _ => num 1
  | nan, _ => nan
  | num _, nan => nan
  | num a, num b =>
      if b.den = 1 then
        if 0 ≤ b.num then num (a ^ b.num.toNat)
        else if a ≠ 0 then num ((a ^ (-b.num).toNat)⁻¹)
        else nan
      else nan

end EDouble

/-! ## Variable store: `cdict.c` (`src/unnamed/part_001`) -/

/-- `CDictSlotStatus` from cdict.c. -/
inductive CDictSlotStatus
  | SLOT_UNUSED
  | SLOT_IN_USE
  | SLOT_DELETED
deriving DecidableEq, Repr

/-- `struct _hash_slot` from cdict.c. -/
structure HashSlot where
  status : CDictSlotStatus
  key : String
  value : EDouble
deriving DecidableEq, Repr

/-- `struct _dictionary` from cdict.c; the slot array is a list whose length
is `capacity`. -/
structure CDict where
  num_stored : Nat
  num_deleted : Nat
  capacity : Nat
  slot : List HashSlot
deriving DecidableEq, Repr

/-- `_CD_hash` from cdict.c.  `unsigned int` arithmetic is 32-bit and wraps,
modelled with `% 4294967296`; `^` is bitwise xor.  The NULL-string guard is
dropped: Lean strings are never null. -/
def CD_hash (str : String) (capacity : Nat) : Nat :=
  match str.toList with
  | [] => 0
  | c :: _ =>
      let cs := str.toList
      let len := cs.length
      let x0 := (c.toNat <<< 7) % 4294967296
      let x1 := cs.foldl (fun x ch => ((1000003 * x) % 4294967296) ^^^ ch.toNat) x0
      ((x1 ^^^ len) % 4294967296) % capacity

/-- The probe loop shared by `CD_store` and `_CD_rehash` reinsertion, without
the rehash check (used only by `_CD_rehash`, where the load factor after
doubling is below the threshold, so the rehash branch of `CD_store` cannot
re-fire during reinsertion).  `i` is the loop counter of
`for (i = 0; i < capacity; i++)`, `count` the number of iterations left. -/
def storeLoopNR (d : CDict) (key : String) (value : EDouble) (index : Nat) :
    Nat → Nat → CDict
  | _, 0 => d
  | i, count + 1 =>
      let probe := (index + i) % d.capacity
      match d.slot.get? probe with
      | none => d
      | some s =>
          if s.status = CDictSlotStatus.SLOT_IN_USE ∧ s.key = key then
            { d with slot := d.slot.set probe { s with value := value } }
          else if s.status ≠ CDictSlotStatus.SLOT_UNUSED then
            storeLoopNR d key value index (i + 1) count
          else
            { d with
              slot := d.slot.set probe ⟨CDictSlotStatus.SLOT_IN_USE, key, value⟩,
              num_stored := d.num_stored + 1 }

/-- `CD_load_factor(dict) > REHASH_THRESHOLD` from cdict.c, with the double
division `(stored + deleted) / capacity > 0.6` idealized as the exact
rational comparison (the claims stay far from the boundary). -/
def CD_load_factor_gt (d : CDict) : Bool :=
  5 * (d.num_stored + d.num_deleted) > 3 * d.capacity

/-- `_CD_rehash` from cdict.c: double the capacity, zero-fill the new slots
(calloc), reinsert every `SLOT_IN_USE` slot in index order.  The C code
reinserts by calling `CD_store`; every stored value is non-zero (storing 0.0
aborts), so the `assert(value)` inside cannot fire, and the load factor
stays below the threshold, so reinsertion reduces to the plain probe loop. -/
def CD_rehash (d : CDict) : CDict :=
  let newcap := d.capacity * 2
  let d0 : CDict :=
    { num_stored := 0, num_deleted := 0, capacity := newcap,
      slot := List.replicate newcap ⟨CDictSlotStatus.SLOT_UNUSED, "", EDouble.num 0⟩ }
  d.slot.foldl
    (fun acc s =>
      if s.status = CDictSlotStatus.SLOT_IN_USE then
        storeLoopNR acc s.key s.value (CD_hash s.key acc.capacity) 0 acc.capacity
      else acc)
    d0

/-- The probe loop of `CD_store` from cdict.c: update an existing key, skip
non-unused slots, or insert into the first unused slot and rehash when the
load factor passes the threshold.  If every slot is probed without storing
(full table) the C loop falls off the end and the dictionary is unchanged. -/
def storeLoop (d : CDict) (key : String) (value : EDouble) (index : Nat) :
    Nat → Nat → CDict
  | _, 0 => d
  | i, count + 1 =>
      let probe := (index + i) % d.capacity
      match d.slot.get? probe with
      | none => d
      | some s =>
          if s.status = CDictSlotStatus.SLOT_IN_USE ∧ s.key = key then
            { d with slot := d.slot.set probe { s with value := value } }
          else if s.status ≠ CDictSlotStatus.SLOT_UNUSED then
            storeLoop d key value index (i + 1) count
          else
            let d1 : CDict :=
              { d with
                slot := d.slot.set probe ⟨CDictSlotStatus.SLOT_IN_USE, key, value⟩,
                num_stored := d.num_stored + 1 }
            if CD_load_factor_gt d1 then CD_rehash d1 else d1

/-- `CD_store` from cdict.c.  `assert(dict)` and `assert(key)` check
pointers and cannot fire here; `assert(value)` converts a `double` to a
boolean, which is false exactly when the value compares equal to `0.0`
(NaN converts to true), so storing the value 0.0 aborts the process —
modelled as `none`.  The debug `printf` is I/O and not modelled. -/
def CD_store (dict : CDict) (key : String) (value : EDouble) : Option CDict :=
  if value = EDouble.num 0 then none
  else some (storeLoop dict key value (CD_hash key dict.capacity) 0 dict.capacity)

/-- The probe loop of `CD_retrieve` from cdict.c. -/
def retrieveLoop (d : CDict) (key : String) (index : Nat) : Nat → Nat → EDouble
  | _, 0 => EDouble.nan
  | i, count + 1 =>
      let probe := (index + i) % d.capacity
      match d.slot.get? probe with
      | none => EDouble.nan
      | some s =>
          if s.status = CDictSlotStatus.SLOT_UNUSED then EDouble.nan
          else if s.status = CDictSlotStatus.SLOT_IN_USE ∧ s.key = key then s.value
          else retrieveLoop d key index (i + 1) count

/-- `CD_retrieve` from cdict.c: probe; an unused slot or an exhausted loop
yields `NAN` (the not-found sentinel). -/
def CD_retrieve (dict : CDict) (key : String) : EDouble :=
  retrieveLoop dict key (CD_hash key dict.capacity) 0 dict.capacity

/-- The probe loop of `CD_contains` from cdict.c. -/
def containsLoop (d : CDict) (key : String) (index : Nat) : Nat → Nat → Bool
  | _, 0 => false
  | i, count + 1 =>
      let probe := (index + i) % d.capacity
      match d.slot.get? probe with
      | none => false
      | some s =>
          if s.status = CDictSlotStatus.SLOT_UNUSED then false
          else if s.status = CDictSlotStatus.SLOT_IN_USE ∧ s.key = key then true
          else containsLoop d key index (i + 1) count

/-- `CD_contains` from cdict.c. -/
def CD_contains (dict : CDict) (key : String) : Bool :=
  containsLoop dict key (CD_hash key dict.capacity) 0 dict.capacity

/-- `CD_new` from cdict.c: capacity 8, all slots unused with key `""` and
value 0. -/
def CD_new : CDict :=
  { num_stored := 0, num_deleted := 0, capacity := 8,
    slot := List.replicate 8 ⟨CDictSlotStatus.SLOT_UNUSED, "", EDouble.num 0⟩ }

/-! ## Expression tree: `expr_tree.c` -/

/-- `ExprNodeType` from expr_tree.h. -/
inductive ExprNodeType
  | VALUE
  | SYMBOL
  | OP_ASSIGN
  | UNARY_NEGATE
  | OP_ADD
  | OP_SUB
  | OP_MUL
  | OP_DIV
  | OP_POWER
deriving DecidableEq, Repr

/-- `struct _expr_tree_node` from expr_tree.c.  The C node is a tag plus a
union of `{child[2], value, symbol}`; the three shapes are the three
non-`nil` constructors here, and `nil` is the C NULL tree (children are
nullable pointers: `ET_node(UNARY_NEGATE, x, NULL)` is how the parser
builds a negation).  A node built by `ET_node` with tag `VALUE` or `SYMBOL`
never occurs in the repository and is not representable; nothing constructs
one. -/
inductive ExprTree
  | nil
  | value (v : EDouble)
  | symbol (s : String)
  | node (op : ExprNodeType) (left right : ExprTree)
deriving DecidableEq, Repr

/-- `ET_value` from expr_tree.c. -/
def ET_value (v : EDouble) : ExprTree := ExprTree.value v

/-- `ET_symbol` from expr_tree.c. -/
def ET_symbol (s : String) : ExprTree := ExprTree.symbol s

/-- `ET_node` from expr_tree.c. -/
def ET_node (op : ExprNodeType) (left right : ExprTree) : ExprTree :=
  ExprTree.node op left right

/-- Reading `t->n.symbol`.  On a symbol node this is the name; on any other
node it is a type-punned read of an inactive union member (for a `VALUE`
node, the bits of the double; for an interior node, the left child pointer;
for NULL, a dereference of NULL) — undefined behavior, modelled as `none`. -/
def unionSymbol : ExprTree → Option String
  | ExprTree.symbol s => some s
  | _ => none

/-- `ExprNodeType_to_char` from expr_tree.c. -/
def ExprNodeType_to_char : ExprNodeType → Char
  | ExprNodeType.OP_ADD => '+'
  | ExprNodeType.OP_SUB => '-'
  | ExprNodeType.OP_MUL => '*'
  | ExprNodeType.OP_DIV => '/'
  | ExprNodeType.OP_POWER => '^'
  | ExprNodeType.OP_ASSIGN => '='
  | ExprNodeType.UNARY_NEGATE => '-'
  | _ => '?'

/-- The state threaded through `ET_evaluate`: the caller's `errmsg` slot,
the variable store, whether the process has aborted (a failed `assert`
inside `CD_store`), and whether undefined behavior (a type-punned union
read) has been invoked. -/
structure EvalState where
  err : Option String
  dict : CDict
  aborted : Bool
  ub : Bool
deriving DecidableEq, Repr

/-- The eval state at the start of a REPL line: `errmsg[0] = '\0'` and a
fresh dictionary (main.c creates the store with `CD_new`). -/
def initEvalState : EvalState :=
  { err := none, dict := CD_new, aborted := false, ub := false }

/-- The `switch (tree->type)` at the foot of `ET_evaluate`
(expr_tree.c:180-211), applied to the two child values.  A state whose
`aborted` flag is set models a process that already terminated inside a
child evaluation; no further C code runs, so the state passes through.
The `OP_ASSIGN` case transcribes expr_tree.c:199-207 — the only place that
checks the left child's type — but it is unreachable: the early `OP_ASSIGN`
branch at expr_tree.c:169 returns first.  The `default` case ("Invalid
operator") handles the remaining tags. -/
def evalSwitch (op : ExprNodeType) (l : ExprTree) (lv rv : EDouble)
    (st : EvalState) : EDouble × EvalState :=
  if st.aborted then (EDouble.num 0, st) else
  match op with
  | ExprNodeType.OP_ADD => (EDouble.add lv rv, st)
  | ExprNodeType.OP_SUB => (EDouble.sub lv rv, st)
  | ExprNodeType.OP_MUL => (EDouble.mul lv rv, st)
  | ExprNodeType.OP_DIV =>
      if rv = EDouble.num 0 then
        (EDouble.nan, { st with err := some "Error: Division by zero" })
      else (EDouble.div lv rv, st)
  | ExprNodeType.OP_POWER => (EDouble.powE lv rv, st)
  | ExprNodeType.UNARY_NEGATE => (EDouble.neg lv, st)
  | ExprNodeType.OP_ASSIGN =>
      match l with
      | ExprTree.symbol name =>
          match CD_store st.dict name rv with
          | some d => (rv, { st with dict := d })
          | none => (rv, { st with aborted := true })
      | _ =>
          (EDouble.nan,
           { st with err := some "Error: Left side of '=' must be a variable" })
  | _ => (EDouble.nan, { st with err := some "Error: Invalid operator" })

/-- `ET_evaluate` from expr_tree.c.  NULL evaluates to 0; a value leaf to
its value; a symbol leaf looks the name up with `CD_retrieve` and treats a
NaN result as "Undefined variable".  An `OP_ASSIGN` node is intercepted
before the children are evaluated (expr_tree.c:169-175): it evaluates the
right child, then calls `CD_store` with `tree->n.child[LEFT]->n.symbol` —
a union read made without checking the left child's type — and returns the
right-hand value, never touching `errmsg`.  Every other interior node
evaluates both children (left first) and dispatches on the switch. -/
def ET_evaluate (tree : ExprTree) (st : EvalState) : EDouble × EvalState :=
  if st.aborted then (EDouble.num 0, st) else
  match tree with
  | ExprTree.nil => (EDouble.num 0, st)
  | ExprTree.value v => (v, st)
  | ExprTree.symbol s =>
      let val := CD_retrieve st.dict s
      if val.isNan then
        (EDouble.nan, { st with err := some ("Undefined variable: " ++ s) })
      else (val, st)
  | ExprTree.node op l r =>
      if op = ExprNodeType.OP_ASSIGN then
        let p := ET_evaluate r st
        if p.2.aborted then p else
        match unionSymbol l with
        | some name =>
            match CD_store p.2.dict name p.1 with
            | some d => (p.1, { p.2 with dict := d })
            | none => (p.1, { p.2 with aborted := true })
        | none => (p.1, { p.2 with ub := true })
      else
        let pl := ET_evaluate l st
        let pr := ET_evaluate r pl.2
        evalSwitch op l pl.1 pr.1 pr.2

/-- The `%g` rendering used by `ET_tree2string` for value leaves.  `%g`
prints an integral double without a decimal point and NaN as `nan`; the
non-integral case (shortest-round-trip digits in C) is not exercised by any
claim and is rendered as the raw rational here. -/
def gFormat : EDouble → String
  | EDouble.num q => if q.den = 1 then toString q.num else toString q
  | EDouble.nan => "nan"

/-- Model of `snprintf(buf, sz, ...)` producing the fixed string `s` (the
`%g` / `%s` calls in `ET_tree2string`): writes `min (|s|) (sz - 1)`
characters and a terminating NUL, and returns the full length `|s|` that
would have been needed.  Callers guarantee `sz > 0`.  `off` is the absolute
offset of `buf`. -/
def snprintfM (off sz : Nat) (s : String) : Nat × List (Nat × Char) :=
  let cs := s.toList
  let k := min cs.length (sz - 1)
  (cs.length,
   ((cs.take k).enum.map fun p => (off + p.1, p.2)) ++ [(off + k, Char.ofNat 0)])

/-- `ET_tree2string` from expr_tree.c.  The byte writes are recorded as
absolute `(index, char)` pairs in program order, `off` being the offset of
`buf` in the top-level buffer; the returned `Nat` is the C return value.
The transcription follows the source line by line: the `buf_sz == 0 || tree
== NULL` guard; `%g` / `%s` leaves; the `UNARY_NEGATE` branch with its `$`
truncation marker (`buf[buf_sz-1] = '$'; buf[buf_sz-2] = '\0'`); and the
binary branch `'(' left op right ')'` with its two `len >= buf_sz` early
returns and the final `buf[len++] = ')'; buf[len] = '\0'`. -/
def ET_tree2string (tree : ExprTree) (off buf_sz : Nat) : Nat × List (Nat × Char) :=
  if buf_sz = 0 ∨ tree = ExprTree.nil then (0, [])
  else
    match tree with
    | ExprTree.nil => (0, [])
    | ExprTree.value v => snprintfM off buf_sz (gFormat v)
    | ExprTree.symbol s => snprintfM off buf_sz s
    | ExprTree.node ExprNodeType.UNARY_NEGATE l _ =>
        if buf_sz < 2 then (0, [])
        else
          let w1 : List (Nat × Char) := [(off, '(')]
          let len1 : Nat := 1
          let w2 := if len1 < buf_sz - 1 then w1 ++ [(off + len1, '-')] else w1
          let len2 := if len1 < buf_sz - 1 then len1 + 1 else len1
          let c := ET_tree2string l (off + len2) (buf_sz - len2)
          let len3 := len2 + c.1
          let w3 := w2 ++ c.2
          if len3 ≥ buf_sz then
            (buf_sz - 1,
             w3 ++ [(off + (buf_sz - 1), '$'), (off + (buf_sz - 2), Char.ofNat 0)])
          else
            let w4 := if len3 < buf_sz - 1 then w3 ++ [(off + len3, ')')] else w3
            let len4 := if len3 < buf_sz - 1 then len3 + 1 else len3
            (len4, w4 ++ [(off + len4, Char.ofNat 0)])
    | ExprTree.node op l r =>
        if buf_sz < 3 then (0, [])
        else
          let w1 : List (Nat × Char) := [(off, '(')]
          let cl := ET_tree2string l (off + 1) (buf_sz - 1)
          let len1 := 1 + cl.1
          let w2 := w1 ++ cl.2
          if len1 ≥ buf_sz then (len1, w2)
          else
            let w3 := w2 ++ [(off + len1, ExprNodeType_to_char op)]
            let len2 := len1 + 1
            let cr := ET_tree2string r (off + len2) (buf_sz - len2)
            let len3 := len2 + cr.1
            let w4 := w3 ++ cr.2
            if len3 ≥ buf_sz then (len3, w4)
            else
              (len3 + 1,
               w4 ++ [(off + len3, ')'), (off + (len3 + 1), Char.ofNat 0)])

/-- Replay a write trace into a buffer of capacity `sz` (initial contents
arbitrary, pictured as `#`), then read the resulting C string: the bytes up
to the first NUL.  Writes at indices `≥ sz` fall outside the buffer and do
not land in it. -/
def bufString (sz : Nat) (writes : List (Nat × Char)) : String :=
  let buf := writes.foldl
    (fun b pc => if pc.1 < sz then b.set pc.1 pc.2 else b)
    (List.replicate sz '#')
  String.mk (buf.takeWhile fun c => c ≠ Char.ofNat 0)

/-! ## Tokenizer: `tokenize.c` -/

/-- `TokenType` from token.h (`src/unnamed/part_000`). -/
inductive TokenType
  | TOK_VALUE
  | TOK_SYMBOL
  | TOK_EQUAL
  | TOK_PLUS
  | TOK_MINUS
  | TOK_MULTIPLY
  | TOK_DIVIDE
  | TOK_POWER
  | TOK_OPEN_PAREN
  | TOK_CLOSE_PAREN
  | TOK_END
deriving DecidableEq, Repr

/-- `Token` from token.h: a type tag and a union `{double value; char
symbol[32]}`.  The union is modelled as both fields, the inactive one held
at its default (`0` / `""`); the code only ever reads the active field. -/
structure Token where
  type : TokenType
  value : ℚ
  symbol : String
deriving DecidableEq, Repr

/-- `TT_to_str` from tokenize.c. -/
def TT_to_str : TokenType → String
  | TokenType.TOK_VALUE => "VALUE"
  | TokenType.TOK_PLUS => "PLUS"
  | TokenType.TOK_MINUS => "MINUS"
  | TokenType.TOK_MULTIPLY => "MULTIPLY"
  | TokenType.TOK_DIVIDE => "DIVIDE"
  | TokenType.TOK_POWER => "POWER"
  | TokenType.TOK_OPEN_PAREN => "OPEN_PAREN"
  | TokenType.TOK_CLOSE_PAREN => "CLOSE_PAREN"
  | TokenType.TOK_SYMBOL => "SYMBOL"
  | TokenType.TOK_EQUAL => "EQUAL"
  | TokenType.TOK_END => "(end)"

/-- C `isspace` in the default locale: space, `\t`, `\n`, vertical tab,
form feed, `\r`. -/
def isspaceC (c : Char) : Bool :=
  c = ' ' ∨ c = '\t' ∨ c = '\n' ∨ c = Char.ofNat 11 ∨ c = Char.ofNat 12 ∨ c = '\r'

/-- Decimal digits of a numeric literal, as a natural number. -/
def digitsToNat (ds : List Char) : Nat :=
  ds.foldl (fun a c => 10 * a + (c.toNat - 48)) 0

/-- Modelled from the spec: `strtod` (libc, not part of the repository) as
the tokenizer uses it — called on a suffix whose first character is a digit
or `.`, it greedily consumes the longest "integer or decimal form" literal
(spec 4.1): digits, optionally a decimal point and more digits.  Returns
the value and the number of characters consumed, or `none` when nothing is
consumed (`endptr == &input[i]`, e.g. a lone `.`).  Exponent forms are not
exercised by any claim. -/
def parseNumber (cs : List Char) : Option (ℚ × Nat) :=
  let ds := cs.takeWhile Char.isDigit
  let rest := cs.drop ds.length
  match rest with
  | '.' :: rest2 =>
      let fs := rest2.takeWhile Char.isDigit
      if ds.length = 0 ∧ fs.length = 0 then none
      else
        some ((digitsToNat ds : ℚ) + (digitsToNat fs : ℚ) / (10 : ℚ) ^ fs.length,
              ds.length + 1 + fs.length)
  | _ => if ds.length = 0 then none else some ((digitsToNat ds : ℚ), ds.length)

/-- The scan of the symbol branch of `TOK_tokenize_input`:
`while ((isalnum(input[i]) || input[i] == '_') && length < 31)`.
`lim` is `31 - length`, the identifier characters still allowed. -/
def scanIdent : Nat → List Char → List Char
  | 0, _ => []
  | _, [] => []
  | lim + 1, c :: rest =>
      if c.isAlphanum ∨ c = '_' then c :: scanIdent lim rest else []

/-- The single-character operator cases of the `switch` in
`TOK_tokenize_input`; `none` is the `default` ("unexpected character"). -/
def charToken : Char → Option TokenType
  | '+' => some TokenType.TOK_PLUS
  | '-' => some TokenType.TOK_MINUS
  | '*' => some TokenType.TOK_MULTIPLY
  | '/' => some TokenType.TOK_DIVIDE
  | '^' => some TokenType.TOK_POWER
  | '(' => some TokenType.TOK_OPEN_PAREN
  | ')' => some TokenType.TOK_CLOSE_PAREN
  | _ => none

/-- The scanning loop of `TOK_tokenize_input` (tokenize.c:60-159).  `i` is
the 0-based scan position (error messages cite `i + 1`); `acc` the tokens
appended so far.  On any lexical error the partially built list is
discarded (`CL_free`) and only the message is returned.  Branch order and
conditions follow the source: whitespace; digit-or-dot (strtod); the symbol
branch with its condition `(isalpha(input[i]) || input[i] == '_') && i < 31`
— note the second conjunct tests the scan POSITION `i`, not the name
length — followed by the (unreachable: the scan stops at 31 characters)
`length > 31` check; `=`; then the operator switch.  Each iteration
consumes at least one character, so fuel `|input| + 1` never runs out; the
fuel-exhausted equation is unreachable. -/
def tokenizeAux : Nat → Nat → List Char → List Token → Except String (List Token)
  | _, _, [], acc => Except.ok (acc ++ [⟨TokenType.TOK_END, 0, ""⟩])
  | 0, _, _, _ => Except.error "out of fuel"
  | fuel + 1, i, c :: rest, acc =>
      if isspaceC c then tokenizeAux fuel (i + 1) rest acc
      else if c.isDigit ∨ c = '.' then
        match parseNumber (c :: rest) with
        | none =>
            Except.error ("Position " ++ toString (i + 1) ++ ": Illegal numeric value")
        | some (q, consumed) =>
            tokenizeAux fuel (i + consumed) ((c :: rest).drop consumed)
              (acc ++ [⟨TokenType.TOK_VALUE, q, ""⟩])
      else if (c.isAlpha ∨ c = '_') ∧ i < 31 then
        let name := scanIdent 31 (c :: rest)
        let length := name.length
        if length > 31 then
          Except.error ("Position " ++ toString (i + 1) ++
            ": Symbol length exceeds maximum of 31 characters")
        else
          tokenizeAux fuel (i + length) ((c :: rest).drop length)
            (acc ++ [⟨TokenType.TOK_SYMBOL, 0, String.mk name⟩])
      else if c = '=' then
        tokenizeAux fuel (i + 1) rest (acc ++ [⟨TokenType.TOK_EQUAL, 0, ""⟩])
      else
        match charToken c with
        | some tt => tokenizeAux fuel (i + 1) rest (acc ++ [⟨tt, 0, ""⟩])
        | none =>
            Except.error ("Position " ++ toString (i + 1) ++
              ": unexpected character " ++ String.mk [c])

/-- `TOK_tokenize_input` from tokenize.c: scan the whole line, then append
the `TOK_END` token.  `Except.error` is the C "return NULL with `errmsg`
filled in". -/
def TOK_tokenize_input (input : String) : Except String (List Token) :=
  tokenizeAux (input.length + 1) 0 input.toList []

/-- `TOK_next_type` from tokenize.c: the type of the front token, `TOK_END`
for an empty list. -/
def TOK_next_type (tokens : List Token) : TokenType :=
  match tokens with
  | [] => TokenType.TOK_END
  | t :: _ => t.type

/-- `TOK_next` from tokenize.c: `CL_nth(tokens, 0)`.  The parser only calls
it on a non-empty list (a tokenizer output always carries its final
`TOK_END`); the default is unreachable. -/
def TOK_next (tokens : List Token) : Token :=
  tokens.headD ⟨TokenType.TOK_END, 0, ""⟩

/-- `TOK_next_Assignement` from tokenize.c: `CL_nth(tokens, 1)`, the
two-token lookahead used by parse1.c.  When it is called the list still
ends in `TOK_END` behind a front symbol token, so index 1 exists; the
default is unreachable. -/
def TOK_next_Assignement (tokens : List Token) : Token :=
  (tokens.drop 1).headD ⟨TokenType.TOK_END, 0, ""⟩

/-- Modelled from the spec: `TOK_next_next_type`, called by parse.c but not
defined in any file under src/.  Spec 4.2: "Assignment is recognized by
exactly two tokens of lookahead: current token is a symbol AND the
immediately following token is `=`" — so it returns the type of the second
token, the counterpart of `TOK_next_Assignement` in tokenize.c. -/
def TOK_next_next_type (tokens : List Token) : TokenType :=
  ((tokens.drop 1).headD ⟨TokenType.TOK_END, 0, ""⟩).type

/-- `TOK_consume` from tokenize.c: pop the front token if any. -/
def TOK_consume (tokens : List Token) : List Token :=
  match tokens with
  | [] => []
  | _ :: rest => rest

/-! ## Parsers: `parse.c` (namespace `P0`) and `parse1.c` (namespace `P1`)

Each grammar rule takes and returns the parser state `PEnv` (the `errmsg`
slot and the remaining tokens of the destructively consumed CList, which
the spec's token-sequence contract describes as pop-from-the-front) and
yields the built tree, `ExprTree.nil` standing for the C NULL failure
return.  The rules are mutually recursive through `primary`'s parenthesis
case; every cycle in the call graph consumes at least one token, so the
recursion is driven by a fuel parameter that `Parse` seeds with more than
the maximum possible call depth (`10 * |tokens| + 10`); the fuel-exhausted
equations are unreachable on every input. -/

/-- Parser state: the caller's `errmsg` slot and the remaining tokens. -/
structure PEnv where
  err : Option String
  toks : List Token
deriving DecidableEq, Repr

namespace P0

mutual

/-- `assignment` from parse.c:36-57: two-token lookahead (symbol then `=`),
then the right-hand side is parsed by `additive`; otherwise fall through to
`additive`.  A NULL right-hand side overwrites `errmsg` with "Error parsing
right-hand side of assignment". -/
def assignment : Nat → PEnv → ExprTree × PEnv
  | 0, env => (ExprTree.nil, env)
  | fuel + 1, env =>
      if TOK_next_type env.toks = TokenType.TOK_SYMBOL ∧
         TOK_next_next_type env.toks = TokenType.TOK_EQUAL then
        let sym := TOK_next env.toks
        let env1 : PEnv := { env with toks := TOK_consume (TOK_consume env.toks) }
        let p := additive fuel env1
        if p.1 = ExprTree.nil then
          (ExprTree.nil,
           { p.2 with err := some "Error parsing right-hand side of assignment" })
        else
          (ET_node ExprNodeType.OP_ASSIGN (ET_symbol sym.symbol) p.1, p.2)
      else additive fuel env

/-- `additive` from parse.c:59-85: a `multiplicative`, then the left-folding
`+`/`-` loop. -/
def additive : Nat → PEnv → ExprTree × PEnv
  | 0, env => (ExprTree.nil, env)
  | fuel + 1, env =>
      let p := multiplicative fuel env
      if p.1 = ExprTree.nil then (ExprTree.nil, p.2)
      else additiveLoop fuel p.1 p.2

/-- The `while (PLUS or MINUS)` loop of `additive`; on a NULL right operand
the accumulated tree is freed and NULL propagates. -/
def additiveLoop : Nat → ExprTree → PEnv → ExprTree × PEnv
  | 0, ret, env => (ret, env)
  | fuel + 1, ret, env =>
      if TOK_next_type env.toks = TokenType.TOK_PLUS ∨
         TOK_next_type env.toks = TokenType.TOK_MINUS then
        let op := TOK_next_type env.toks
        let env1 : PEnv := { env with toks := TOK_consume env.toks }
        let p := multiplicative fuel env1
        if p.1 = ExprTree.nil then (ExprTree.nil, p.2)
        else
          additiveLoop fuel
            (ET_node
              (if op = TokenType.TOK_PLUS then ExprNodeType.OP_ADD
               else ExprNodeType.OP_SUB) ret p.1) p.2
      else (ret, env)

/-- `multiplicative` from parse.c:87-114: an `exponential`, then the
left-folding `*`/`/` loop. -/
def multiplicative : Nat → PEnv → ExprTree × PEnv
  | 0, env => (ExprTree.nil, env)
  | fuel + 1, env =>
      let p := exponential fuel env
      if p.1 = ExprTree.nil then (ExprTree.nil, p.2)
      else multiplicativeLoop fuel p.1 p.2

/-- The `while (MULTIPLY or DIVIDE)` loop of `multiplicative`. -/
def multiplicativeLoop : Nat → ExprTree → PEnv → ExprTree × PEnv
  | 0, ret, env => (ret, env)
  | fuel + 1, ret, env =>
      if TOK_next_type env.toks = TokenType.TOK_MULTIPLY ∨
         TOK_next_type env.toks = TokenType.TOK_DIVIDE then
        let op := TOK_next_type env.toks
        let env1 : PEnv := { env with toks := TOK_consume env.toks }
        let p := exponential fuel env1
        if p.1 = ExprTree.nil then (ExprTree.nil, p.2)
        else
          multiplicativeLoop fuel
            (ET_node
              (if op = TokenType.TOK_MULTIPLY then ExprNodeType.OP_MUL
               else ExprNodeType.OP_DIV) ret p.1) p.2
      else (ret, env)

/-- `exponential` from parse.c:116-137: a `primary`, then the `^` loop whose
right operand recurses into `exponential` itself (right-associative). -/
def exponential : Nat → PEnv → ExprTree × PEnv
  | 0, env => (ExprTree.nil, env)
  | fuel + 1, env =>
      let p := primary fuel env
      if p.1 = ExprTree.nil then (ExprTree.nil, p.2)
      else expLoop fuel p.1 p.2

/-- The `while (POWER)` loop of `exponential`. -/
def expLoop : Nat → ExprTree → PEnv → ExprTree × PEnv
  | 0, ret, env => (ret, env)
  | fuel + 1, ret, env =>
      if TOK_next_type env.toks = TokenType.TOK_POWER then
        let env1 : PEnv := { env with toks := TOK_consume env.toks }
        let p := exponential fuel env1
        if p.1 = ExprTree.nil then (ExprTree.nil, p.2)
        else expLoop fuel (ET_node ExprNodeType.OP_POWER ret p.1) p.2
      else (ret, env)

/-- `primary` from parse.c:139-187: a value leaf, a symbol leaf, a
parenthesized `assignment` (the close paren is checked after the inner
parse, even when it failed), or unary minus recursing into `primary` with a
NULL right child; anything else is "Unexpected token <kind>". -/
def primary : Nat → PEnv → ExprTree × PEnv
  | 0, env => (ExprTree.nil, env)
  | fuel + 1, env =>
      if TOK_next_type env.toks = TokenType.TOK_VALUE then
        (ET_value (EDouble.num (TOK_next env.toks).value),
         { env with toks := TOK_consume env.toks })
      else if TOK_next_type env.toks = TokenType.TOK_SYMBOL then
        let sym := TOK_next env.toks
        (ET_symbol sym.symbol, { env with toks := TOK_consume env.toks })
      else if TOK_next_type env.toks = TokenType.TOK_OPEN_PAREN then
        let env1 : PEnv := { env with toks := TOK_consume env.toks }
        let p := assignment fuel env1
        if TOK_next_type p.2.toks = TokenType.TOK_CLOSE_PAREN then
          (p.1, { p.2 with toks := TOK_consume p.2.toks })
        else
          (ExprTree.nil,
           { p.2 with
             err := some ("Unexpected token " ++ TT_to_str (TOK_next_type p.2.toks)) })
      else if TOK_next_type env.toks = TokenType.TOK_MINUS then
        let env1 : PEnv := { env with toks := TOK_consume env.toks }
        let p := primary fuel env1
        if p.1 = ExprTree.nil then (ExprTree.nil, p.2)
        else (ET_node ExprNodeType.UNARY_NEGATE p.1 ExprTree.nil, p.2)
      else
        (ExprTree.nil,
         { env with
           err := some ("Unexpected token " ++ TT_to_str (TOK_next env.toks).type) })

end

/-- `Parse` from parse.c:189-209: run `assignment`, then require `TOK_END`
("Syntax error on token <kind>" otherwise, freeing the tree).  The
debugging `printf` of the next token is I/O and not modelled. -/
def Parse (tokens : List Token) : ExprTree × PEnv :=
  let p := assignment (10 * tokens.length + 10) { err := none, toks := tokens }
  if p.1 = ExprTree.nil then p
  else if TOK_next_type p.2.toks ≠ TokenType.TOK_END then
    (ExprTree.nil,
     { p.2 with
       err := some ("Syntax error on token " ++ TT_to_str (TOK_next_type p.2.toks)) })
  else p

end P0

namespace P1

mutual

/-- `assignment` from parse1.c:39-53: lookahead via `TOK_next_Assignement`;
the right-hand side recurses into `assignment` itself (right-associative),
and — unlike parse.c — the result is NOT checked against NULL before
`ET_node` is called, so a failed right-hand side yields an assignment node
with a NULL right child. -/
def assignment : Nat → PEnv → ExprTree × PEnv
  | 0, env => (ExprTree.nil, env)
  | fuel + 1, env =>
      if TOK_next_type env.toks = TokenType.TOK_SYMBOL ∧
         (TOK_next_Assignement env.toks).type = TokenType.TOK_EQUAL then
        let sym := TOK_next env.toks
        let env1 : PEnv := { env with toks := TOK_consume (TOK_consume env.toks) }
        let p := assignment fuel env1
        (ET_node ExprNodeType.OP_ASSIGN (ET_symbol sym.symbol) p.1, p.2)
      else additive fuel env

/-- `additive` from parse1.c:58-81. -/
def additive : Nat → PEnv → ExprTree × PEnv
  | 0, env => (ExprTree.nil, env)
  | fuel + 1, env =>
      let p := multiplicative fuel env
      if p.1 = ExprTree.nil then (ExprTree.nil, p.2)
      else additiveLoop fuel p.1 p.2

/-- The `+`/`-` loop of parse1.c's `additive`. -/
def additiveLoop : Nat → ExprTree → PEnv → ExprTree × PEnv
  | 0, ret, env => (ret, env)
  | fuel + 1, ret, env =>
      if TOK_next_type env.toks = TokenType.TOK_PLUS ∨
         TOK_next_type env.toks = TokenType.TOK_MINUS then
        let op := TOK_next_type env.toks
        let env1 : PEnv := { env with toks := TOK_consume env.toks }
        let p := multiplicative fuel env1
        if p.1 = ExprTree.nil then (ExprTree.nil, p.2)
        else
          additiveLoop fuel
            (ET_node
              (if op = TokenType.TOK_PLUS then ExprNodeType.OP_ADD
               else ExprNodeType.OP_SUB) ret p.1) p.2
      else (ret, env)

/-- `multiplicative` from parse1.c:86-109. -/
def multiplicative : Nat → PEnv → ExprTree × PEnv
  | 0, env => (ExprTree.nil, env)
  | fuel + 1, env =>
      let p := exponential fuel env
      if p.1 = ExprTree.nil then (ExprTree.nil, p.2)
      else multiplicativeLoop fuel p.1 p.2

/-- The `*`/`/` loop of parse1.c's `multiplicative`. -/
def multiplicativeLoop : Nat → ExprTree → PEnv → ExprTree × PEnv
  | 0, ret, env => (ret, env)
  | fuel + 1, ret, env =>
      if TOK_next_type env.toks = TokenType.TOK_MULTIPLY ∨
         TOK_next_type env.toks = TokenType.TOK_DIVIDE then
        let op := TOK_next_type env.toks
        let env1 : PEnv := { env with toks := TOK_consume env.toks }
        let p := exponential fuel env1
        if p.1 = ExprTree.nil then (ExprTree.nil, p.2)
        else
          multiplicativeLoop fuel
            (ET_node
              (if op = TokenType.TOK_MULTIPLY then ExprNodeType.OP_MUL
               else ExprNodeType.OP_DIV) ret p.1) p.2
      else (ret, env)

/-- `exponential` from parse1.c:114-133. -/
def exponential : Nat → PEnv → ExprTree × PEnv
  | 0, env => (ExprTree.nil, env)
  | fuel + 1, env =>
      let p := primary fuel env
      if p.1 = ExprTree.nil then (ExprTree.nil, p.2)
      else expLoop fuel p.1 p.2

/-- The `^` loop of parse1.c's `exponential` (right operand recurses into
`exponential`). -/
def expLoop : Nat → ExprTree → PEnv → ExprTree × PEnv
  | 0, ret, env => (ret, env)
  | fuel + 1, ret, env =>
      if TOK_next_type env.toks = TokenType.TOK_POWER then
        let env1 : PEnv := { env with toks := TOK_consume env.toks }
        let p := exponential fuel env1
        if p.1 = ExprTree.nil then (ExprTree.nil, p.2)
        else expLoop fuel (ET_node ExprNodeType.OP_POWER ret p.1) p.2
      else (ret, env)

/-- `primary` from parse1.c:138-171; the missing-close-paren message here is
"Expected closing parenthesis.". -/
def primary : Nat → PEnv → ExprTree × PEnv
  | 0, env => (ExprTree.nil, env)
  | fuel + 1, env =>
      if TOK_next_type env.toks = TokenType.TOK_VALUE then
        (ET_value (EDouble.num (TOK_next env.toks).value),
         { env with toks := TOK_consume env.toks })
      else if TOK_next_type env.toks = TokenType.TOK_SYMBOL then
        let sym := TOK_next env.toks
        (ET_symbol sym.symbol, { env with toks := TOK_consume env.toks })
      else if TOK_next_type env.toks = TokenType.TOK_OPEN_PAREN then
        let env1 : PEnv := { env with toks := TOK_consume env.toks }
        let p := assignment fuel env1
        if TOK_next_type p.2.toks = TokenType.TOK_CLOSE_PAREN then
          (p.1, { p.2 with toks := TOK_consume p.2.toks })
        else
          (ExprTree.nil, { p.2 with err := some "Expected closing parenthesis." })
      else if TOK_next_type env.toks = TokenType.TOK_MINUS then
        let env1 : PEnv := { env with toks := TOK_consume env.toks }
        let p := primary fuel env1
        if p.1 = ExprTree.nil then (ExprTree.nil, p.2)
        else (ET_node ExprNodeType.UNARY_NEGATE p.1 ExprTree.nil, p.2)
      else
        (ExprTree.nil,
         { env with
           err := some ("Unexpected token " ++ TT_to_str (TOK_next env.toks).type) })

end

/-- `Parse` from parse1.c:176-192. -/
def Parse (tokens : List Token) : ExprTree × PEnv :=
  let p := assignment (10 * tokens.length + 10) { err := none, toks := tokens }
  if p.1 = ExprTree.nil then p
  else if TOK_next_type p.2.toks ≠ TokenType.TOK_END then
    (ExprTree.nil,
     { p.2 with
       err := some ("Syntax error on token " ++ TT_to_str (TOK_next_type p.2.toks)) })
  else p

end P1

/-! ## Concrete inputs used by the claims -/

/-- The token sequence of `"x = y = 5"` (checked against the tokenizer in
the theorems that use it). -/
def tsXY5 : List Token :=
  [⟨TokenType.TOK_SYMBOL, 0, "x"⟩, ⟨TokenType.TOK_EQUAL, 0, ""⟩,
   ⟨TokenType.TOK_SYMBOL, 0, "y"⟩, ⟨TokenType.TOK_EQUAL, 0, ""⟩,
   ⟨TokenType.TOK_VALUE, 5, ""⟩, ⟨TokenType.TOK_END, 0, ""⟩]

/-- The token sequence of `"2^3^2"`. -/
def ts832 : List Token :=
  [⟨TokenType.TOK_VALUE, 2, ""⟩, ⟨TokenType.TOK_POWER, 0, ""⟩,
   ⟨TokenType.TOK_VALUE, 3, ""⟩, ⟨TokenType.TOK_POWER, 0, ""⟩,
   ⟨TokenType.TOK_VALUE, 2, ""⟩, ⟨TokenType.TOK_END, 0, ""⟩]

/-- The token sequence of `"x = 0"`. -/
def tsX0 : List Token :=
  [⟨TokenType.TOK_SYMBOL, 0, "x"⟩, ⟨TokenType.TOK_EQUAL, 0, ""⟩,
   ⟨TokenType.TOK_VALUE, 0, ""⟩, ⟨TokenType.TOK_END, 0, ""⟩]

/-- The right-associated tree `2^(3^2)`. -/
def powTree232 : ExprTree :=
  ExprTree.node ExprNodeType.OP_POWER (ExprTree.value (EDouble.num 2))
    (ExprTree.node ExprNodeType.OP_POWER (ExprTree.value (EDouble.num 3))
      (ExprTree.value (EDouble.num 2)))

/-- The tree `(1+2)`, whose canonical rendering `"(1+2)"` has length 5. -/
def addTree12 : ExprTree :=
  ExprTree.node ExprNodeType.OP_ADD (ExprTree.value (EDouble.num 1))
    (ExprTree.value (EDouble.num 2))

/-- The tree of `"x = 0"`. -/
def assignX0 : ExprTree :=
  ExprTree.node ExprNodeType.OP_ASSIGN (ExprTree.symbol "x")
    (ExprTree.value (EDouble.num 0))

/-- A store in which `x` is bound to the NaN value (the binding `CD_store`
creates, e.g., after evaluating `x = 5/0`; `assert(value)` passes because
NaN converts to true). -/
def dictXnan : CDict := (CD_store CD_new "x" EDouble.nan).getD CD_new

/-! ## Claims -/

/-- C1: the claim says that evaluating an assignment whose left child is
not a symbol-leaf writes an error message and returns the NaN sentinel
without binding anything.  The code does not: the early `OP_ASSIGN` branch
(expr_tree.c:169-175) runs before the type-checking `switch` case
(expr_tree.c:199-207, which is consequently dead code), evaluates the right
child, performs `CD_store` through a type-punned union read of the
non-symbol left child (undefined behavior), and returns the right-hand
value with `errmsg` untouched.  At the concrete input
`OP_ASSIGN(VALUE 1, VALUE 2)`: result `2`, no error message, undefined
behavior invoked. -/
theorem assign_nonsymbol_left_no_error :
    (ET_evaluate
      (ExprTree.node ExprNodeType.OP_ASSIGN (ExprTree.value (EDouble.num 1))
        (ExprTree.value (EDouble.num 2))) initEvalState).1 = EDouble.num 2 ∧
    (ET_evaluate
      (ExprTree.node ExprNodeType.OP_ASSIGN (ExprTree.value (EDouble.num 1))
        (ExprTree.value (EDouble.num 2))) initEvalState).2.err = none ∧
    (ET_evaluate
      (ExprTree.node ExprNodeType.OP_ASSIGN (ExprTree.value (EDouble.num 1))
        (ExprTree.value (EDouble.num 2))) initEvalState).2.ub = true :=
  ⟨rfl, rfl, rfl⟩

/-- C2: the claim says any input of 32+ identifier characters fails with a
lexical error citing the name's start position.  The code's `length > 31`
check is unreachable (the scan loop stops at 31 characters), so instead the
first 31 characters are emitted as a symbol token and scanning resumes at
the 32nd character, where `i < 31` fails: 32 letters `a` give "Position 32:
unexpected character a" (not the start position 1, and not the
symbol-length message), and 31 letters followed by the digit `5` tokenize
SUCCESSFULLY as a symbol token plus a number token. -/
theorem oversized_name_error_position :
    TOK_tokenize_input (String.mk (List.replicate 32 'a')) =
      Except.error "Position 32: unexpected character a" ∧
    TOK_tokenize_input (String.mk (List.replicate 31 'a' ++ ['5'])) =
      Except.ok
        [⟨TokenType.TOK_SYMBOL, 0, String.mk (List.replicate 31 'a')⟩,
         ⟨TokenType.TOK_VALUE, 5, ""⟩, ⟨TokenType.TOK_END, 0, ""⟩] :=
  ⟨rfl, rfl⟩

/-- C3 counterexample: the claim says `Parse` succeeds on the token
sequence of `"x = y = 5"` with a nested assignment tree.  For the `Parse`
of parse.c — whose `assignment` rule parses the right-hand side with
`additive`, not `assignment` — the parse FAILS: the inner `y` is consumed
as a bare symbol, the second `=` remains, and the end-of-input check
reports "Syntax error on token EQUAL". -/
theorem parse_chained_assignment_rejected :
    TOK_tokenize_input "x = y = 5" = Except.ok tsXY5 ∧
    (P0.Parse tsXY5).1 = ExprTree.nil ∧
    (P0.Parse tsXY5).2.err = some "Syntax error on token EQUAL" :=
  ⟨rfl, rfl, rfl⟩

/-- C3 amended: on the token sequence of `"x = y = 5"`, the parse1.c
variant — whose `assignment` recurses into `assignment` for the right-hand
side — succeeds with the right-associative tree
`OP_ASSIGN(x, OP_ASSIGN(y, 5))` and no error, while the parse.c variant
fails with "Syntax error on token EQUAL". -/
theorem parse1_chained_assignment_right_assoc :
    (P1.Parse tsXY5).1 =
      ExprTree.node ExprNodeType.OP_ASSIGN (ExprTree.symbol "x")
        (ExprTree.node ExprNodeType.OP_ASSIGN (ExprTree.symbol "y")
          (ExprTree.value (EDouble.num 5))) ∧
    (P1.Parse tsXY5).2.err = none ∧
    (P0.Parse tsXY5).1 = ExprTree.nil ∧
    (P0.Parse tsXY5).2.err = some "Syntax error on token EQUAL" :=
  ⟨rfl, rfl, rfl, rfl⟩

/-- C4: the claim says a symbol-leaf whose name IS bound in the store
evaluates to the stored value with no error — in particular a name bound to
NaN is not reported undefined.  The code conflates the two: `CD_retrieve`
returns the stored NaN, `isnan(val)` fires, and `ET_evaluate` writes
"Undefined variable: x" for the bound name.  Concretely: after
`CD_store(dict, "x", NaN)` the store CONTAINS `x`, yet evaluating the
symbol-leaf `x` writes the undefined-variable message. -/
theorem bound_nan_reported_undefined :
    CD_contains dictXnan "x" = true ∧
    CD_retrieve dictXnan "x" = EDouble.nan ∧
    (ET_evaluate (ExprTree.symbol "x")
      { initEvalState with dict := dictXnan }).1 = EDouble.nan ∧
    (ET_evaluate (ExprTree.symbol "x")
      { initEvalState with dict := dictXnan }).2.err =
        some "Undefined variable: x" :=
  ⟨rfl, rfl, rfl, rfl⟩

/-- C5: the claim says `ET_tree2string` never writes to any byte outside
`buf[0..buf_sz-1]`.  It does: when `buf_sz` equals the canonical length
exactly — tree `(1+2)`, canonical string `"(1+2)"` of length 5, `buf_sz =
5` — the final `len >= buf_sz` check passes with `len = 4`, `')'` is
written at `buf[4]`, and the terminating NUL is then written at `buf[5]`,
one byte past the buffer.  (With `buf_sz = 6` the same tree renders exactly
`"(1+2)"`, confirming 5 is the canonical length.) -/
theorem tree2string_writes_past_buffer :
    bufString 6 (ET_tree2string addTree12 0 6).2 = "(1+2)" ∧
    (ET_tree2string addTree12 0 5).1 = 5 ∧
    ((5 : Nat), Char.ofNat 0) ∈ (ET_tree2string addTree12 0 5).2 := by
  refine ⟨rfl, rfl, ?_⟩
  decide

/-- C6: the claim says `CD_store` stores any numeric value, including 0.0,
without aborting, so `x = 0` binds `x` to 0.  The code's `assert(value)`
converts the double to a boolean, which is false for 0.0, so the assertion
fails and the process aborts: `CD_store(dict, "x", 0.0)` never returns, and
evaluating the parsed tree of `"x = 0"` kills the process instead of
binding `x`. -/
theorem store_zero_aborts :
    CD_store CD_new "x" (EDouble.num 0) = none ∧
    TOK_tokenize_input "x = 0" = Except.ok tsX0 ∧
    (P0.Parse tsX0).1 = assignX0 ∧
    (ET_evaluate assignX0 initEvalState).2.aborted = true :=
  ⟨rfl, rfl, rfl, rfl⟩

/-- C7: the claim says a letter or underscore starts a symbol token at ANY
scan position.  The symbol branch's condition `(isalpha(input[i]) ||
input[i] == '_') && i < 31` tests the scan position `i`, not the name
length, so a name starting at 0-based position 30 (31st column) still
tokenizes, but the same name preceded by 31 blanks falls through to the
operator switch and fails with "Position 32: unexpected character x". -/
theorem symbol_position_limit :
    TOK_tokenize_input (String.mk (List.replicate 30 ' ' ++ ['x'])) =
      Except.ok [⟨TokenType.TOK_SYMBOL, 0, "x"⟩, ⟨TokenType.TOK_END, 0, ""⟩] ∧
    TOK_tokenize_input (String.mk (List.replicate 31 ' ' ++ ['x'])) =
      Except.error "Position 32: unexpected character x" :=
  ⟨rfl, rfl⟩

/-- C8: exponentiation is right-associative: the tokens of `"2^3^2"` parse
(parse.c) to `2^(3^2)`, which stringifies to `"(2^(3^2))"` and evaluates to
512 (not 64) with no error. -/
theorem power_right_associative :
    TOK_tokenize_input "2^3^2" = Except.ok ts832 ∧
    (P0.Parse ts832).1 = powTree232 ∧
    (P0.Parse ts832).2.err = none ∧
    bufString 100 (ET_tree2string powTree232 0 100).2 = "(2^(3^2))" ∧
    (ET_evaluate powTree232 initEvalState).1 = EDouble.num 512 ∧
    (ET_evaluate powTree232 initEvalState).2.err = none :=
  ⟨rfl, rfl, rfl, rfl, rfl, rfl⟩

/-- C9: for every division node whose right child evaluates to exactly
zero (in a run that has not aborted), `ET_evaluate` writes "Error: Division
by zero" into the error slot and returns the NaN sentinel instead of
dividing. -/
theorem div_by_zero_reports_error (l r : ExprTree) (st : EvalState)
    (h : st.aborted = false)
    (hA : (ET_evaluate r (ET_evaluate l st).2).2.aborted = false)
    (h0 : (ET_evaluate r (ET_evaluate l st).2).1 = EDouble.num 0) :
    (ET_evaluate (ExprTree.node ExprNodeType.OP_DIV l r) st).1 = EDouble.nan ∧
    (ET_evaluate (ExprTree.node ExprNodeType.OP_DIV l r) st).2.err =
      some "Error: Division by zero" := by
  simp [ET_evaluate, evalSwitch, h, hA, h0]

/-- C9 witness: the instance `5/0` from a fresh state. -/
theorem div_by_zero_reports_error_witness :
    initEvalState.aborted = false ∧
    (ET_evaluate (ExprTree.value (EDouble.num 0))
      (ET_evaluate (ExprTree.value (EDouble.num 5)) initEvalState).2).2.aborted = false ∧
    (ET_evaluate (ExprTree.value (EDouble.num 0))
      (ET_evaluate (ExprTree.value (EDouble.num 5)) initEvalState).2).1 = EDouble.num 0 ∧
    ((ET_evaluate
        (ExprTree.node ExprNodeType.OP_DIV (ExprTree.value (EDouble.num 5))
          (ExprTree.value (EDouble.num 0))) initEvalState).1 = EDouble.nan ∧
     (ET_evaluate
        (ExprTree.node ExprNodeType.OP_DIV (ExprTree.value (EDouble.num 5))
          (ExprTree.value (EDouble.num 0))) initEvalState).2.err =
        some "Error: Division by zero") :=
  ⟨rfl, rfl, rfl,
   div_by_zero_reports_error (ExprTree.value (EDouble.num 5))
     (ExprTree.value (EDouble.num 0)) initEvalState rfl rfl rfl⟩

/-- C10: for every assignment whose left child is a symbol-leaf, if
evaluating the right child reports an evaluation error (error slot written,
NaN returned) in a run that has not aborted, `ET_evaluate` still calls
`CD_store` with that NaN value under the symbol's name (the store is
mutated — no atomicity on error), returns NaN, and leaves the error slot as
the right child wrote it. -/
theorem assign_stores_nan_on_rhs_error (name : String) (r : ExprTree)
    (st : EvalState)
    (h : st.aborted = false)
    (hA : (ET_evaluate r st).2.aborted = false)
    (hnan : (ET_evaluate r st).1 = EDouble.nan)
    (_herr : (ET_evaluate r st).2.err.isSome = true) :
    (ET_evaluate (ExprTree.node ExprNodeType.OP_ASSIGN (ExprTree.symbol name) r)
        st).1 = EDouble.nan ∧
    some (ET_evaluate (ExprTree.node ExprNodeType.OP_ASSIGN (ExprTree.symbol name) r)
        st).2.dict = CD_store (ET_evaluate r st).2.dict name EDouble.nan ∧
    (ET_evaluate (ExprTree.node ExprNodeType.OP_ASSIGN (ExprTree.symbol name) r)
        st).2.err = (ET_evaluate r st).2.err := by
  simp [ET_evaluate, CD_store, unionSymbol, h, hA, hnan]

/-- C10 witness: the instance `x = 5/0` from a fresh state. -/
theorem assign_stores_nan_on_rhs_error_witness :
    initEvalState.aborted = false ∧
    (ET_evaluate
      (ExprTree.node ExprNodeType.OP_DIV (ExprTree.value (EDouble.num 5))
        (ExprTree.value (EDouble.num 0))) initEvalState).2.aborted = false ∧
    (ET_evaluate
      (ExprTree.node ExprNodeType.OP_DIV (ExprTree.value (EDouble.num 5))
        (ExprTree.value (EDouble.num 0))) initEvalState).1 = EDouble.nan ∧
    (ET_evaluate
      (ExprTree.node ExprNodeType.OP_DIV (ExprTree.value (EDouble.num 5))
        (ExprTree.value (EDouble.num 0))) initEvalState).2.err.isSome = true ∧
    ((ET_evaluate
        (ExprTree.node ExprNodeType.OP_ASSIGN (ExprTree.symbol "x")
          (ExprTree.node ExprNodeType.OP_DIV (ExprTree.value (EDouble.num 5))
            (ExprTree.value (EDouble.num 0)))) initEvalState).1 = EDouble.nan ∧
     some (ET_evaluate
        (ExprTree.node ExprNodeType.OP_ASSIGN (ExprTree.symbol "x")
          (ExprTree.node ExprNodeType.OP_DIV (ExprTree.value (EDouble.num 5))
            (ExprTree.value (EDouble.num 0)))) initEvalState).2.dict =
       CD_store
         (ET_evaluate
           (ExprTree.node ExprNodeType.OP_DIV (ExprTree.value (EDouble.num 5))
             (ExprTree.value (EDouble.num 0))) initEvalState).2.dict
         "x" EDouble.nan ∧
     (ET_evaluate
        (ExprTree.node ExprNodeType.OP_ASSIGN (ExprTree.symbol "x")
          (ExprTree.node ExprNodeType.OP_DIV (ExprTree.value (EDouble.num 5))
            (ExprTree.value (EDouble.num 0)))) initEvalState).2.err =
       (ET_evaluate
         (ExprTree.node ExprNodeType.OP_DIV (ExprTree.value (EDouble.num 5))
           (ExprTree.value (EDouble.num 0))) initEvalState).2.err) :=
  ⟨rfl, rfl, rfl, rfl,
   assign_stores_nan_on_rhs_error "x"
     (ExprTree.node ExprNodeType.OP_DIV (ExprTree.value (EDouble.num 5))
       (ExprTree.value (EDouble.num 0))) initEvalState rfl rfl rfl rfl⟩
